import Mathlib

/-!
# Verification of the batch ingestion pipeline

A shallow embedding, in Lean 4, of the core of the `playground_batch_ingest`
service (`src/services/csv_processor.py`, `publisher.py`, `batch_processor.py`,
`dlq.py`), together with theorems settling the frozen claims about its
natural-language specification.

Conventions of the embedding:
* Python dicts of CSV cells become association lists `Row := List (String × String)`;
  `dict.get` becomes a first-match lookup.
* Python floats that originate from decimal literals in CSV cells are embedded
  as exact scaled decimals: a pair `(a, e) : Nat × Nat` denotes the number
  `a / 10^e`.  All decimal-place arithmetic is done exactly on these pairs.
* Exceptions become `Except String` / `Option`; a caught exception becomes an
  ordinary value in the corresponding error position.
* The pandas detail that matters for row numbering is kept: `DataFrame.iloc`
  slicing preserves the original integer index labels, and `iterrows()` yields
  those labels, so batches are lists of `(label, row)` pairs whose labels are
  the *global* 0-based positions in the file.
-/

set_option autoImplicit false

namespace BatchIngest

/-! ## Schema header lists

Transcribed from `TRANSACTION_CSV_HEADERS`, `SHOP_CSV_HEADERS`,
`PRODUCT_CSV_HEADERS` in `src/schemas/*.py`. -/

def TRANSACTION_CSV_HEADERS : List String :=
  ["transaction_id", "customer_id", "amount", "currency", "transaction_type",
   "timestamp", "merchant_id", "description", "payment_method_type",
   "payment_method_last_four", "payment_method_provider", "location_country",
   "location_city", "location_postal_code"]

def SHOP_CSV_HEADERS : List String :=
  ["shop_id", "name", "description", "category", "status", "owner_name",
   "owner_email", "owner_phone", "address_street", "address_city",
   "address_state", "address_postal_code", "address_country", "contact_phone",
   "contact_email", "contact_website", "business_hours_monday",
   "business_hours_tuesday", "business_hours_wednesday",
   "business_hours_thursday", "business_hours_friday",
   "business_hours_saturday", "business_hours_sunday", "registration_date",
   "last_updated"]

def PRODUCT_CSV_HEADERS : List String :=
  ["product_id", "sku", "name", "description", "category", "subcategory",
   "brand", "price_amount", "price_currency", "price_discount_amount",
   "price_discount_percentage", "inventory_quantity", "inventory_reserved",
   "inventory_warehouse_location", "dimensions_length", "dimensions_width",
   "dimensions_height", "dimensions_weight", "attributes_color",
   "attributes_size", "attributes_material", "attributes_style", "shop_id",
   "status", "images", "tags", "created_date", "last_updated"]

/-! ## Type detection (`CSVProcessor._detect_data_type`,
`CSVProcessor._generate_unique_headers`) -/

/-- `MIN_HEADER_MATCH_COUNT` from `CSVProcessorConfig`. -/
def MIN_HEADER_MATCH_COUNT : Nat := 5

/-- ASCII case folding of one character, as `str.lower()` acts on the ASCII
header strings used by the pipeline. -/
def lowerChar (c : Char) : Char :=
  if 65 ≤ c.toNat ∧ c.toNat ≤ 90 then Char.ofNat (c.toNat + 32) else c

/-- `str.lower()` on an ASCII string (the pandas `df.columns.str.lower()`
step applied to each column name). -/
def lowerString (s : String) : String :=
  ⟨s.data.map lowerChar⟩

/-- Python `len(set(headers) & set(schema)) > 0`: some input header occurs in
the schema's header list. -/
def intersects (headers schema : List String) : Bool :=
  headers.any (fun h => schema.contains h)

/-- Python `len(set(headers) & set(schema))`: the number of distinct input
headers that occur in the schema's header list. -/
def interCount (headers schema : List String) : Nat :=
  (headers.dedup.filter (fun h => schema.contains h)).length

/-- `_generate_unique_headers()["transaction"]`: transaction headers absent
from the union of the shop and product header sets. -/
def uniqueTransactionHeaders : List String :=
  TRANSACTION_CSV_HEADERS.filter
    (fun h => !(SHOP_CSV_HEADERS.contains h) && !(PRODUCT_CSV_HEADERS.contains h))

/-- `_generate_unique_headers()["shop"]`. -/
def uniqueShopHeaders : List String :=
  SHOP_CSV_HEADERS.filter
    (fun h => !(TRANSACTION_CSV_HEADERS.contains h) && !(PRODUCT_CSV_HEADERS.contains h))

/-- `_generate_unique_headers()["product"]`. -/
def uniqueProductHeaders : List String :=
  PRODUCT_CSV_HEADERS.filter
    (fun h => !(TRANSACTION_CSV_HEADERS.contains h) && !(SHOP_CSV_HEADERS.contains h))

/-- Body of `_detect_data_type` after the headers have been read and
case-folded.  The `unique_headers` dict is iterated in insertion order
(transaction, shop, product); the general fallback likewise checks
transaction, then shop, then product, each against
`MIN_HEADER_MATCH_COUNT`. -/
def detectFromHeaders (headers : List String) : String :=
  if intersects headers uniqueTransactionHeaders then "transaction"
  else if intersects headers uniqueShopHeaders then "shop"
  else if intersects headers uniqueProductHeaders then "product"
  else if interCount headers TRANSACTION_CSV_HEADERS > MIN_HEADER_MATCH_COUNT then "transaction"
  else if interCount headers SHOP_CSV_HEADERS > MIN_HEADER_MATCH_COUNT then "shop"
  else if interCount headers PRODUCT_CSV_HEADERS > MIN_HEADER_MATCH_COUNT then "product"
  else "transaction"

/-- `_detect_data_type`: `none` is the unreadable-source case (the
`except` branch returns `"transaction"`); `some hs` is a readable source whose
first line has columns `hs`, which get case-folded before matching. -/
def detect_data_type : Option (List String) → String
  | none => "transaction"
  | some hs => detectFromHeaders (hs.map lowerString)

/-! ## Exact decimal arithmetic for the precision guard
(`CSVProcessor._validate_amount_decimals`)

A monetary amount read from a CSV cell is a decimal literal; we embed it as a
pair `(a, e) : Nat × Nat` denoting the exact value `v = a / 10^e`.  The
Python guard goes through two lossy steps: `float(literal)` replaces `v` by
the nearest binary double `x`, and `f"{x:.{k}f}"` (with `k = p+5`) rounds
`x` to `k` fractional digits.  This embedding computes with the exact
decimal instead, so it coincides with the program exactly on the domain
where the float detour is harmless: when `v` itself fits the formatting
grid (`e ≤ k`) and its scaled value `N = a·10^(k-e)` satisfies `N < 2^52`.
On that domain `ulp(x) ≤ v·2⁻⁵² < 10^-k`, hence
`|x·10^k − N| ≤ 10^k·ulp/2 < 1/2`, so the correctly-rounded formatting of
`x` lands on exactly the integer `N` — no rounding, no tie, no precision
loss.  Outside the domain the real guard is *weaker* than this exact model
(formatting rounds digits away when `e > k`; `float()` collapses literals of
16 or more significant digits when `N ≥ 2^52`), which is what the C4
counterexample and amendment record, and why `c4_precision_guard` carries
both domain hypotheses. -/

def TRANSACTION_DECIMAL_PLACES : Nat := 2
def PRODUCT_DECIMAL_PLACES : Nat := 2

/-- Number of factors of 10 in `n`, with fuel (enough fuel is always supplied
by callers); `tenVal fuel 0 = fuel`-ish degenerate cases never arise since
callers pass `n ≠ 0`. -/
def tenVal : Nat → Nat → Nat
  | 0, _ => 0
  | fuel + 1, n => if n % 10 = 0 then tenVal fuel (n / 10) + 1 else 0

/-- The number of significant fractional digits of `M / 10^k` (`k` fractional
digits written out, then trailing zeros trimmed — the
`rstrip("0")`/`split(".")` logic of `_validate_amount_decimals`). -/
def fracDigitsOf (M k : Nat) : Nat :=
  let F := M % 10 ^ k
  if F = 0 then 0 else k - tenVal k F

/-- `f"{float(literal):.{k}f}"` on the value `a / 10^e`, as a scaled
integer: the numerator of the rounded value over `10^k`, computed as exact
round-half-up of the decimal.  Faithful to the program exactly when
`e ≤ k` and `a·10^(k-e) < 2^52` (see the section comment): there the nearest
double sits strictly within half a formatting step of the exact value, so
the correctly-rounded float formatting produces this very integer.  Beyond
that domain `float()` precision loss makes the program round away digits
this exact computation keeps, so theorems about the guard assume the domain
explicitly. -/
def roundScaled (a e k : Nat) : Nat :=
  (2 * a * 10 ^ k + 10 ^ e) / (2 * 10 ^ e)

/-- `_validate_amount_decimals(amount, p)` for `amount = a / 10^e`:
`True` for zero amounts; otherwise format to `p+5` fractional digits, trim
trailing zeros, and require at most `p` fractional digits.  Exact-decimal
semantics: coincides with the program on `e ≤ p+5` and
`a·10^(p+5-e) < 2^52` (the domain of `roundScaled`'s faithfulness); outside
it the program can return `True` where this model rejects, because its
float conversion and formatting discard fractional digits first. -/
def validate_amount_decimals (a e p : Nat) : Bool :=
  if a = 0 then true
  else decide (fracDigitsOf (roundScaled a e (p + 5)) (p + 5) ≤ p)

/-! ## Flat rows and the record transformers
(`CSVProcessor._transform_transaction_row`, `_transform_shop_row`,
`_transform_product_row`)

A `Row` is the `row.to_dict()` passed to a transformer: column name mapped to
raw cell string (`pd.read_csv(..., dtype=str, keep_default_na=False)` makes
every present cell a string, empty cells `""`). -/

def Row : Type := List (String × String)

instance : DecidableEq Row := inferInstanceAs (DecidableEq (List (String × String)))

instance : Repr Row := inferInstanceAs (Repr (List (String × String)))

/-- `row.get(k)`: `some` value when the key is present, `none` otherwise. -/
def rget (row : Row) (k : String) : Option String :=
  (row.find? (fun p => p.1 == k)).map (fun p => p.2)

/-- `row.get(k, d)`. -/
def rgetD (row : Row) (k d : String) : String :=
  (rget row k).getD d

/-- Python truthiness of `row.get(k)`: key present with a non-empty value. -/
def truthy (row : Row) (k : String) : Bool :=
  match rget row k with
  | some s => !(s == "")
  | none => false

/-- Value of an ASCII digit character. -/
def digitVal? (c : Char) : Option Nat :=
  if c.isDigit then some (c.toNat - 48) else none

/-- Reads a (possibly empty) run of digits as a number; `none` on any
non-digit. -/
def digitsVal? (cs : List Char) : Option Nat :=
  cs.foldl
    (fun acc c =>
      match acc, digitVal? c with
      | some n, some d => some (n * 10 + d)
      | _, _ => none)
    (some 0)

/-- Python `float(s)` on the nonnegative plain decimal literals of the
monetary/numeric CSV columns (`"12"`, `"12.5"`, `".5"`, `"5."`): yields the
scaled decimal `(a, e)` with value `a / 10^e` — the literal's exact value,
which the actual double matches to within half an ulp (the decimal-guard
theorems bound the domain where that slack is invisible; see the precision
section).  Other float syntax (signs, exponents, `inf`) is outside the
column format and maps to `none` (a raised `ValueError`). -/
def parseDecimal (s : String) : Option (Nat × Nat) :=
  match s.data.splitOn '.' with
  | [ds] => if ds.isEmpty then none else (digitsVal? ds).map (fun n => (n, 0))
  | [is, fs] =>
      if is.isEmpty && fs.isEmpty then none
      else
        match digitsVal? is, digitsVal? fs with
        | some ni, some nf => some (ni * 10 ^ fs.length + nf, fs.length)
        | _, _ => none
  | _ => none

/-- Python `int(s)` on nonnegative integer literals. -/
def parseInt (s : String) : Option Nat :=
  if s.data.isEmpty then none else digitsVal? s.data

/-- `float(row[k])` when `row.get(k)` is truthy, `none` when not attempted;
a raised `ValueError` becomes `Except.error`. -/
def optFloat (row : Row) (k : String) : Except String (Option (Nat × Nat)) :=
  if truthy row k then
    match parseDecimal (rgetD row k "") with
    | some q => pure (some q)
    | none => throw ("could not convert string to float: " ++ rgetD row k "")
  else pure none

/-- `int(row[k])` when `row.get(k)` is truthy. -/
def optInt (row : Row) (k : String) : Except String (Option Nat) :=
  if truthy row k then
    match parseInt (rgetD row k "") with
    | some n => pure (some n)
    | none => throw ("invalid literal for int() with base 10: " ++ rgetD row k "")
  else pure none

/-- `float(row.get(k, 0)) if row.get(k) else 0.0`: the required-numeric
pattern of the transformers. -/
def reqFloat (row : Row) (k : String) : Except String (Nat × Nat) :=
  if truthy row k then
    match parseDecimal (rgetD row k "") with
    | some q => pure q
    | none => throw ("could not convert string to float: " ++ rgetD row k "")
  else pure ((0 : Nat), (0 : Nat))

/-- `int(row.get(k, 0)) if row.get(k) else 0`: the required-integer pattern
of the transformers. -/
def reqInt (row : Row) (k : String) : Except String Nat :=
  if truthy row k then
    match parseInt (rgetD row k "") with
    | some n => pure n
    | none => throw ("invalid literal for int() with base 10: " ++ rgetD row k "")
  else pure (0 : Nat)

instance {e a : Type} [DecidableEq e] [DecidableEq a] : DecidableEq (Except e a) := fun x y =>
  match x, y with
  | .ok v, .ok w => decidable_of_iff (v = w) (by simp)
  | .ok _, .error _ => isFalse (by simp)
  | .error _, .ok _ => isFalse (by simp)
  | .error m1, .error m2 => decidable_of_iff (m1 = m2) (by simp)

structure PaymentMethod where
  type : String
  last_four : String
  provider : String
deriving DecidableEq, Repr

structure TxLocation where
  country : Option String
  city : Option String
  postal_code : Option String
deriving DecidableEq, Repr

structure TxRecord where
  transaction_id : String
  customer_id : String
  amount : Nat × Nat
  currency : String
  transaction_type : String
  timestamp : String
  payment_method : PaymentMethod
  merchant_id : Option String
  description : Option String
  location : Option TxLocation
deriving DecidableEq, Repr

/-- `_transform_transaction_row`.  The only raising step is
`float(row.get("amount", 0))` on a truthy, unparsable amount. -/
def transform_transaction_row (row : Row) : Except String TxRecord := do
  let amount ← reqFloat row "amount"
  pure
    { transaction_id := rgetD row "transaction_id" ""
      customer_id := rgetD row "customer_id" ""
      amount := amount
      currency := rgetD row "currency" "USD"
      transaction_type := rgetD row "transaction_type" ""
      timestamp := rgetD row "timestamp" ""
      payment_method :=
        { type := rgetD row "payment_method_type" ""
          last_four := rgetD row "payment_method_last_four" ""
          provider := rgetD row "payment_method_provider" "" }
      merchant_id := if truthy row "merchant_id" then some (rgetD row "merchant_id" "") else none
      description := if truthy row "description" then some (rgetD row "description" "") else none
      location :=
        if truthy row "location_country" || truthy row "location_city" ||
            truthy row "location_postal_code" then
          some
            { country := if truthy row "location_country" then some (rgetD row "location_country" "") else none
              city := if truthy row "location_city" then some (rgetD row "location_city" "") else none
              postal_code :=
                if truthy row "location_postal_code" then some (rgetD row "location_postal_code" "") else none }
        else none }

structure ShopOwner where
  name : String
  email : String
  phone : Option String
deriving DecidableEq, Repr

structure ShopAddress where
  street : String
  city : String
  country : String
  state : Option String
  postal_code : Option String
deriving DecidableEq, Repr

structure ShopContact where
  phone : Option String
  email : Option String
  website : Option String
deriving DecidableEq, Repr

structure ShopRecord where
  shop_id : String
  name : String
  category : String
  status : String
  owner : ShopOwner
  address : ShopAddress
  registration_date : String
  description : Option String
  contact : Option ShopContact
  business_hours : Option (List (String × String))
  last_updated : Option String
deriving DecidableEq, Repr

def weekdays : List String :=
  ["monday", "tuesday", "wednesday", "thursday", "friday", "saturday", "sunday"]

/-- `_transform_shop_row` (never raises). -/
def transform_shop_row (row : Row) : ShopRecord :=
  let hours :=
    (weekdays.filter (fun d => truthy row ("business_hours_" ++ d))).map
      (fun d => (d, rgetD row ("business_hours_" ++ d) ""))
  { shop_id := rgetD row "shop_id" ""
    name := rgetD row "name" ""
    category := rgetD row "category" ""
    status := rgetD row "status" ""
    owner :=
      { name := rgetD row "owner_name" ""
        email := rgetD row "owner_email" ""
        phone := if truthy row "owner_phone" then some (rgetD row "owner_phone" "") else none }
    address :=
      { street := rgetD row "address_street" ""
        city := rgetD row "address_city" ""
        country := rgetD row "address_country" ""
        state := if truthy row "address_state" then some (rgetD row "address_state" "") else none
        postal_code :=
          if truthy row "address_postal_code" then some (rgetD row "address_postal_code" "") else none }
    registration_date := rgetD row "registration_date" ""
    description := if truthy row "description" then some (rgetD row "description" "") else none
    contact :=
      if truthy row "contact_phone" || truthy row "contact_email" || truthy row "contact_website" then
        some
          { phone := if truthy row "contact_phone" then some (rgetD row "contact_phone" "") else none
            email := if truthy row "contact_email" then some (rgetD row "contact_email" "") else none
            website := if truthy row "contact_website" then some (rgetD row "contact_website" "") else none }
      else none
    business_hours := if hours.isEmpty then none else some hours
    last_updated := if truthy row "last_updated" then some (rgetD row "last_updated" "") else none }

/-- Python `str.strip()`: remove leading and trailing whitespace. -/
def stripChars (cs : List Char) : List Char :=
  ((cs.dropWhile Char.isWhitespace).reverse.dropWhile Char.isWhitespace).reverse

/-- The comma-splitting fallback for `tags`:
`[tag.strip() for tag in row["tags"].split(",")]`. -/
def commaSplitStrip (s : String) : List String :=
  (s.data.splitOn ',').map (fun cs => ⟨stripChars cs⟩)

/-- Scan up to the closing double quote of a JSON string (no escapes, the cell
format used for `images`/`tags`); returns the string's characters and the
remainder after the quote. -/
def takeJsonString : List Char → Option (List Char × List Char)
  | [] => none
  | c :: cs =>
      if c = '"' then some ([], cs)
      else
        match takeJsonString cs with
        | some (s, rest) => some (c :: s, rest)
        | none => none

/-- Items of a JSON array of plain strings, after the opening bracket and
leading whitespace; fuel-bounded (callers pass the character count). -/
def jsonArrayItems : Nat → List Char → Option (List String)
  | 0, _ => none
  | fuel + 1, cs =>
      match cs with
      | '"' :: rest =>
          match takeJsonString rest with
          | some (item, rest2) =>
              match rest2.dropWhile Char.isWhitespace with
              | ',' :: rest3 =>
                  match jsonArrayItems fuel (rest3.dropWhile Char.isWhitespace) with
                  | some items => some (⟨item⟩ :: items)
                  | none => none
              | ']' :: tail =>
                  if (tail.dropWhile Char.isWhitespace).isEmpty then some [⟨item⟩] else none
              | _ => none
          | none => none
      | _ => none

/-- `json.loads` on the fragment the product cells use: a JSON array of
escape-free strings.  Any other cell content is `none` (in the code a
`json.JSONDecodeError`, or a non-list value outside the modeled format),
sending the transformer to its fallback branch. -/
def parseJsonStringArray (s : String) : Option (List String) :=
  match s.data.dropWhile Char.isWhitespace with
  | '[' :: rest =>
      match rest.dropWhile Char.isWhitespace with
      | ']' :: tail => if (tail.dropWhile Char.isWhitespace).isEmpty then some [] else none
      | rest2 => jsonArrayItems (rest2.length + 1) rest2
  | _ => none

structure Price where
  amount : Nat × Nat
  currency : String
  discount_amount : Option (Nat × Nat)
  discount_percentage : Option (Nat × Nat)
deriving DecidableEq, Repr

structure Inventory where
  quantity : Nat
  reserved : Option Nat
  warehouse_location : Option String
deriving DecidableEq, Repr

structure Dimensions where
  length : Option (Nat × Nat)
  width : Option (Nat × Nat)
  height : Option (Nat × Nat)
  weight : Option (Nat × Nat)
deriving DecidableEq, Repr

structure ProductRecord where
  product_id : String
  sku : String
  name : String
  category : String
  price : Price
  inventory : Inventory
  shop_id : String
  status : String
  created_date : String
  description : Option String
  subcategory : Option String
  brand : Option String
  dimensions : Option Dimensions
  attributes : Option (List (String × String))
  images : Option (List String)
  tags : Option (List String)
  last_updated : Option String
deriving DecidableEq, Repr

def attributeKeys : List String := ["color", "size", "material", "style"]

/-- The `dimensions` sub-object of `_transform_product_row`: built only when
some dimension column is truthy; each truthy member is float-coerced. -/
def dimensionsOf (row : Row) : Except String (Option Dimensions) :=
  if truthy row "dimensions_length" || truthy row "dimensions_width" ||
      truthy row "dimensions_height" || truthy row "dimensions_weight" then do
    let l ← optFloat row "dimensions_length"
    let w ← optFloat row "dimensions_width"
    let h ← optFloat row "dimensions_height"
    let wt ← optFloat row "dimensions_weight"
    pure (some { length := l, width := w, height := h, weight := wt : Dimensions })
  else pure none

/-- `_transform_product_row`.  Raising steps are the `float(...)`/`int(...)`
coercions of truthy numeric cells. -/
def transform_product_row (row : Row) : Except String ProductRecord := do
  let priceAmount ← reqFloat row "price_amount"
  let invQuantity ← reqInt row "inventory_quantity"
  let discountAmount ← optFloat row "price_discount_amount"
  let discountPercentage ← optFloat row "price_discount_percentage"
  let invReserved ← optInt row "inventory_reserved"
  let dimensions ← dimensionsOf row
  let attrs :=
    (attributeKeys.filter (fun a => truthy row ("attributes_" ++ a))).map
      (fun a => (a, rgetD row ("attributes_" ++ a) ""))
  pure
    { product_id := rgetD row "product_id" ""
      sku := rgetD row "sku" ""
      name := rgetD row "name" ""
      category := rgetD row "category" ""
      price :=
        { amount := priceAmount
          currency := rgetD row "price_currency" "USD"
          discount_amount := discountAmount
          discount_percentage := discountPercentage }
      inventory :=
        { quantity := invQuantity
          reserved := invReserved
          warehouse_location :=
            if truthy row "inventory_warehouse_location" then
              some (rgetD row "inventory_warehouse_location" "")
            else none }
      shop_id := rgetD row "shop_id" ""
      status := rgetD row "status" ""
      created_date := rgetD row "created_date" ""
      description := if truthy row "description" then some (rgetD row "description" "") else none
      subcategory := if truthy row "subcategory" then some (rgetD row "subcategory" "") else none
      brand := if truthy row "brand" then some (rgetD row "brand" "") else none
      dimensions := dimensions
      attributes := if attrs.isEmpty then none else some attrs
      images :=
        if truthy row "images" then
          match parseJsonStringArray (rgetD row "images" "") with
          | some l => some l
          | none => some [rgetD row "images" ""]
        else none
      tags :=
        if truthy row "tags" then
          match parseJsonStringArray (rgetD row "tags" "") with
          | some l => some l
          | none => some (commaSplitStrip (rgetD row "tags" ""))
        else none
      last_updated := if truthy row "last_updated" then some (rgetD row "last_updated" "") else none }

/-! ## Batch-chunked validation
(`CSVProcessor.process_csv_file`, `CSVProcessor._process_batch`)

`pd.read_csv` indexes rows 0..n-1; `df.iloc[a:b]` keeps those labels, and
`iterrows()` yields them, so a batch is a list of `(label, row)` pairs whose
labels are global file positions.  The error entry of a failing row is
`{"row": batch_offset + idx + 1, "error": ..., "data": row}` with `idx` the
label.  The per-row work (transform, guards, schema check) is a `step`
parameter: any exception in it is caught for that row only. -/

structure ErrorEntry where
  row : Nat
  error : String
  data : Row
deriving DecidableEq, Repr

/-- `_process_batch`: iterate the batch in order, appending each row's result
to exactly one of the success and error lists (the append loop rendered as
structural recursion, preserving order). -/
def process_batch {α : Type} (step : Row → Except String α) :
    List (Nat × Row) → Nat → List α × List ErrorEntry
  | [], _ => ([], [])
  | p :: ps, off =>
      let rest := process_batch step ps off
      match step p.2 with
      | .ok v => (v :: rest.1, rest.2)
      | .error msg => (rest.1, ⟨off + p.1 + 1, msg, p.2⟩ :: rest.2)

/-- The `for batch_start in range(0, total_rows, batch_size)` loop of
`process_csv_file`: slice off `batch_size` labeled rows, process them with
`batch_offset = batch_start`, and concatenate the per-batch lists.  The loop
runs at most `ceil(n / batch_size) ≤ n` times for a positive `batch_size`, so
`fuel = n` (supplied by `process_csv_file`) always suffices. -/
def processBatches {α : Type} (step : Row → Except String α) (bs : Nat) :
    Nat → List (Nat × Row) → Nat → List α × List ErrorEntry
  | _, [], _ => ([], [])
  | 0, _ :: _, _ => ([], [])
  | fuel + 1, l, off =>
      let first := process_batch step (l.take bs) off
      let rest := processBatches step bs fuel (l.drop bs) (off + bs)
      (first.1 ++ rest.1, first.2 ++ rest.2)

structure ProcResult (α : Type) where
  data_type : String
  total_rows : Nat
  processed_rows : Nat
  error_count : Nat
  data : List α
  errors : List ErrorEntry
deriving DecidableEq, Repr

/-- `process_csv_file` after a successful full read of the source (the
fully-read case: file exists, is small enough, parses): label the rows
0..n-1 as pandas does, process them in `batch_size` windows, and assemble the
result dictionary. -/
def process_csv_file {α : Type} (step : Row → Except String α) (batch_size : Nat)
    (data_type : String) (rows : List Row) : ProcResult α :=
  let acc := processBatches step batch_size rows.length rows.enum 0
  { data_type := data_type
    total_rows := rows.length
    processed_rows := acc.1.length
    error_count := acc.2.length
    data := acc.1
    errors := acc.2 }

/-- Left-pad with `'0'` to `n` characters. -/
def padZeros (n : Nat) (s : String) : String :=
  ⟨List.replicate (n - s.length) '0' ++ s.data⟩

/-- Python `str(x)` for a float holding the exact decimal `a / 10^e` (the
shortest-repr rendering, which for the short monetary literals embedded here
is the trimmed decimal itself, with `".0"` when there is no fractional
part). -/
def pyFloatRepr (a e : Nat) : String :=
  let ip := a / 10 ^ e
  let F := a % 10 ^ e
  if F = 0 then toString ip ++ ".0"
  else
    let z := tenVal e F
    toString ip ++ "." ++ padZeros (e - z) (toString (F / 10 ^ z))

/-- The per-row work of `_process_batch` for `data_type == "transaction"`:
transform the row, coerce the amount to float (exact on this embedding),
apply the decimal-precision guard — raising
`ValidationError(f"Amount {amount} has more than {2} decimal places")` when it
fails — and catch: `ValidationError` becomes a `"Schema validation error: "`
message, any other exception (the transformer's float coercion) a
`"Processing error: "` message.  The terminal jsonschema structural check is
not embedded; the concrete rows fed to it in the theorems below are
structurally valid, on which it accepts. -/
def txRowStep (row : Row) : Except String TxRecord :=
  match transform_transaction_row row with
  | .error msg => .error ("Processing error: " ++ msg)
  | .ok r =>
      if validate_amount_decimals r.amount.1 r.amount.2 TRANSACTION_DECIMAL_PLACES then .ok r
      else
        .error ("Schema validation error: Amount " ++ pyFloatRepr r.amount.1 r.amount.2 ++
          " has more than " ++ toString TRANSACTION_DECIMAL_PLACES ++ " decimal places")

/-! ## Publisher (`BatchPublisher.publish_batch_data`,
`BatchPublisher._publish_single_message`)

The transport (`publisher.publish(...).result(timeout=30)`) is abstracted as a
map from attempt number to outcome: a message id, a transport-classified
transient error (`GoogleCloudError`), or any other (fatal/unexpected)
exception. -/

inductive SendOutcome
  | success (id : String)
  | transient
  | fatal
deriving DecidableEq, Repr

/-- The `for attempt in range(self.max_retries + 1)` retry loop of
`_publish_single_message`: `remaining` is the number of loop iterations left
(`maxRetries + 1 - attempt`); returns the published id (or `none` — a
`return None`, including the fall-through after the loop), the list of
backoff sleeps performed (`time.sleep(2 ** attempt)` before each retry), and
the number of send invocations made. -/
def publishLoop (outcomes : Nat → SendOutcome) (maxRetries : Nat) :
    Nat → Nat → Option String × List Nat × Nat
  | 0, _ => (none, [], 0)
  | remaining + 1, attempt =>
      match outcomes attempt with
      | .success id => (some id, [], 1)
      | .fatal => (none, [], 1)
      | .transient =>
          if attempt < maxRetries then
            let r := publishLoop outcomes maxRetries remaining (attempt + 1)
            (r.1, 2 ^ attempt :: r.2.1, r.2.2 + 1)
          else (none, [], 1)

/-- `_publish_single_message` for one record whose successive send invocations
behave as `outcomes`. -/
def publish_single_message (outcomes : Nat → SendOutcome) (maxRetries : Nat) :
    Option String × List Nat × Nat :=
  publishLoop outcomes maxRetries (maxRetries + 1) 0

/-- The backoff schedule from attempt number `attempt` on: `K` sleeps of
`2^attempt, 2^(attempt+1), …` time units. -/
def backoffsFrom (attempt K : Nat) : List Nat :=
  (List.range K).map (fun j => 2 ^ (attempt + j))

/-- The backoff schedule of a record that needed `K` retries:
`2^0, 2^1, …, 2^(K-1)` time units. -/
def backoffs (K : Nat) : List Nat :=
  (List.range K).map (fun j => 2 ^ j)

structure PublishResult where
  success : Bool
  published_count : Nat
  failed_count : Nat
  message_ids : List String
deriving DecidableEq, Repr

/-- The per-item loop of `publish_batch_data`: collect ids of successful
items in order and count failures (a `None` return or an exception from
`_publish_single_message`, which the loop catches, both count as one
failure). -/
def publishItems (maxRetries : Nat) : List (Nat → SendOutcome) → List String × Nat
  | [] => ([], 0)
  | tr :: trs =>
      let rest := publishItems maxRetries trs
      match (publish_single_message tr maxRetries).1 with
      | some id => (id :: rest.1, rest.2)
      | none => (rest.1, rest.2 + 1)

/-- `publish_batch_data`: empty data returns the all-zero success summary
without touching the transport; otherwise each item is published separately
and the summary assembled. -/
def publish_batch_data (maxRetries : Nat) (items : List (Nat → SendOutcome)) : PublishResult :=
  if items.isEmpty then { success := true, published_count := 0, failed_count := 0, message_ids := [] }
  else
    let acc := publishItems maxRetries items
    { success := acc.2 == 0
      published_count := acc.1.length
      failed_count := acc.2
      message_ids := acc.1 }

/-! ## Orchestrator (`BatchProcessor.process_file`,
`BatchProcessor.process_gcs_event`, `BatchProcessor.process_multiple_files`)

Collaborator calls are abstracted as outcomes: a returned value, or a raised
(unexpected) exception.  The DLQ senders and `publish_batch_data` catch
internally and return values, so they never raise into the orchestrator;
`process_csv_file` likewise returns a result dictionary on every input. -/

inductive DLQCategory
  | processing_error
  | file_error
  | validation_errors
  | publishing_error
deriving DecidableEq, Repr

/-- Outcome of one Python call: a returned value, or a raised exception. -/
inductive PyResult (α : Type)
  | ok (a : α)
  | exc (msg : String)
deriving DecidableEq, Repr

/-- What `process_csv_file` handed back (it never raises): the fields
`process_file` inspects. -/
structure CsvSummary where
  data_type : String
  total_rows : Nat
  processed_rows : Nat
  error_count : Nat
  has_data : Bool
  has_errors : Bool
deriving DecidableEq, Repr

/-- One file-processing scenario: how each collaborator call behaves.
`download` is `gcs_handler.download_file` (a local path, `None`, or an
unexpected exception); `metadata` is `gcs_handler.get_file_metadata`
(a metadata dict or `None`, or an unexpected exception). -/
structure FileScenario where
  download : PyResult (Option String)
  metadata : PyResult Unit
  csv : CsvSummary
  publish : PublishResult
deriving DecidableEq, Repr

/-- What `process_file` did: the `success` flag of the returned dictionary,
the DLQ envelope categories sent (in order), the number of
`cleanup_file` calls, and the processed/published counts its summary carries
(0 on the failure dictionaries, which lack the summary keys). -/
structure FileOutcome where
  success : Bool
  dlqSends : List DLQCategory
  cleanups : Nat
  processedRows : Nat
  publishedCount : Nat
deriving DecidableEq, Repr

/-- `process_file`: download, metadata, csv-process, route validation errors,
publish, route publishing failures, cleanup.  Any exception raised inside is
caught by the method's own `except`, which cleans up (when a path exists) and
sends a `file_error` envelope — not a `processing_error` one. -/
def process_file (s : FileScenario) : FileOutcome :=
  match s.download with
  | .exc _ =>
      { success := false, dlqSends := [DLQCategory.file_error], cleanups := 0,
        processedRows := 0, publishedCount := 0 }
  | .ok none =>
      { success := false, dlqSends := [DLQCategory.file_error], cleanups := 0,
        processedRows := 0, publishedCount := 0 }
  | .ok (some _) =>
      match s.metadata with
      | .exc _ =>
          { success := false, dlqSends := [DLQCategory.file_error], cleanups := 1,
            processedRows := 0, publishedCount := 0 }
      | .ok _ =>
          let valSends := if s.csv.has_errors then [DLQCategory.validation_errors] else []
          let pubSends :=
            if s.csv.has_data && (!s.publish.success || s.publish.failed_count != 0) then
              [DLQCategory.publishing_error]
            else []
          { success := true
            dlqSends := valSends ++ pubSends
            cleanups := 1
            processedRows := s.csv.processed_rows
            publishedCount := if s.csv.has_data then s.publish.published_count else 0 }

/-- One GCS-event scenario: whether the event has bucket and object names,
how `is_supported_file_type` behaves (it can raise only unexpectedly), and
the file scenario behind it. -/
structure EventScenario where
  hasNames : Bool
  supported : PyResult Bool
  file : FileScenario
deriving DecidableEq, Repr

structure EventOutcome where
  success : Bool
  dlqSends : List DLQCategory
deriving DecidableEq, Repr

/-- `process_gcs_event`: its own `except` catches exceptions raised outside
`process_file` (which returns on every input) and routes them as
`processing_error`. -/
def process_gcs_event (s : EventScenario) : EventOutcome :=
  if !s.hasNames then { success := false, dlqSends := [] }
  else
    match s.supported with
    | .exc _ => { success := false, dlqSends := [DLQCategory.processing_error] }
    | .ok false => { success := false, dlqSends := [] }
    | .ok true =>
        let f := process_file s.file
        { success := f.success, dlqSends := f.dlqSends }

structure MultiAggregate where
  success : Bool
  processed_files : Nat
  successful_files : Nat
  failed_files : Nat
  total_records_processed : Nat
  total_records_published : Nat
deriving DecidableEq, Repr

/-- `process_multiple_files` over per-item outcomes (each worker runs
`process_file`, which returns on every input, so the per-future
`future.result()` never raises).  `completedInTime` says whether every future
completed before `processing_timeout` elapsed.  When it did not,
`as_completed(future_to_file, timeout=...)` raises
`concurrent.futures.TimeoutError` from the generator — at the `for`
statement, *outside* the per-future `try` — and no enclosing handler exists,
so the exception escapes the method instead of an aggregate being
returned. -/
def process_multiple_files (fileResults : List FileOutcome) (completedInTime : Bool) :
    PyResult MultiAggregate :=
  if fileResults.isEmpty then
    .ok { success := true, processed_files := 0, successful_files := 0, failed_files := 0,
          total_records_processed := 0, total_records_published := 0 }
  else if !completedInTime then .exc "concurrent.futures.TimeoutError"
  else
    let n := fileResults.length
    let succ := (fileResults.filter (fun r => r.success)).length
    .ok
      { success := succ == n
        processed_files := n
        successful_files := succ
        failed_files := n - succ
        total_records_processed := (fileResults.map (fun r => r.processedRows)).sum
        total_records_published := (fileResults.map (fun r => r.publishedCount)).sum }

/-! ## Concrete inputs for evaluation theorems -/

/-- A structurally valid transaction row with the given id suffix and amount
cell. -/
def txRow (i : String) (amt : String) : Row :=
  [("transaction_id", "txn_" ++ i), ("customer_id", "cust_" ++ i), ("amount", amt),
   ("currency", "USD"), ("transaction_type", "purchase"),
   ("timestamp", "2024-01-15T10:30:00Z"), ("payment_method_type", "credit_card"),
   ("payment_method_last_four", "1234"), ("payment_method_provider", "Visa")]

/-- A six-row transaction file whose sixth row (global index 5) fails the
decimal-precision guard: with `batch_size = 5` it is the first row of the
second window. -/
def sixRows : List Row :=
  [txRow "1" "10.00", txRow "2" "11.50", txRow "3" "12.25", txRow "4" "13.75",
   txRow "5" "14.10", txRow "6" "99.999"]

/-- A clean three-row csv outcome, for concrete orchestrator scenarios. -/
def csvCleanSummary : CsvSummary :=
  { data_type := "transaction", total_rows := 3, processed_rows := 3, error_count := 0,
    has_data := true, has_errors := false }

/-- A fully successful publish outcome, for concrete orchestrator
scenarios. -/
def pubCleanResult : PublishResult :=
  { success := true, published_count := 3, failed_count := 0,
    message_ids := ["m1", "m2", "m3"] }

/-- The record `_transform_transaction_row` builds from a row with no
columns: every `.get` falls back to its default. -/
def txEmptyRecord : TxRecord :=
  { transaction_id := "", customer_id := "", amount := (0, 0), currency := "USD",
    transaction_type := "", timestamp := "",
    payment_method := { type := "", last_four := "", provider := "" },
    merchant_id := none, description := none, location := none }

/-- The record `_transform_product_row` builds from a row with no columns. -/
def prodEmptyRecord : ProductRecord :=
  { product_id := "", sku := "", name := "", category := "",
    price := { amount := (0, 0), currency := "USD", discount_amount := none,
               discount_percentage := none },
    inventory := { quantity := 0, reserved := none, warehouse_location := none },
    shop_id := "", status := "", created_date := "", description := none,
    subcategory := none, brand := none, dimensions := none, attributes := none,
    images := none, tags := none, last_updated := none }

/-! # Theorems -/

/-- C7: when the (case-folded) headers of a readable source intersect no
schema's unique-header set and the intersection with each schema's full
column list does not exceed the threshold `MIN_HEADER_MATCH_COUNT = 5`, type
detection returns `"transaction"`; an unreadable source also yields
`"transaction"`.  In both cases a value is returned (the functions are
total). -/
theorem c7_detect_defaults_to_transaction (hs : List String)
    (h1 : intersects (hs.map lowerString) uniqueTransactionHeaders = false)
    (h2 : intersects (hs.map lowerString) uniqueShopHeaders = false)
    (h3 : intersects (hs.map lowerString) uniqueProductHeaders = false)
    (h4 : interCount (hs.map lowerString) TRANSACTION_CSV_HEADERS ≤ MIN_HEADER_MATCH_COUNT)
    (h5 : interCount (hs.map lowerString) SHOP_CSV_HEADERS ≤ MIN_HEADER_MATCH_COUNT)
    (h6 : interCount (hs.map lowerString) PRODUCT_CSV_HEADERS ≤ MIN_HEADER_MATCH_COUNT) :
    detect_data_type (some hs) = "transaction" ∧ detect_data_type none = "transaction" := by
  refine ⟨?_, rfl⟩
  have g4 : ¬ interCount (hs.map lowerString) TRANSACTION_CSV_HEADERS > MIN_HEADER_MATCH_COUNT := by
    omega
  have g5 : ¬ interCount (hs.map lowerString) SHOP_CSV_HEADERS > MIN_HEADER_MATCH_COUNT := by
    omega
  have g6 : ¬ interCount (hs.map lowerString) PRODUCT_CSV_HEADERS > MIN_HEADER_MATCH_COUNT := by
    omega
  simp [detect_data_type, detectFromHeaders, h1, h2, h3, g4, g5, g6]

/-- Witness for C7: a source whose single header `"foo"` matches nothing. -/
theorem c7_detect_defaults_to_transaction_witness :
    detect_data_type (some ["foo"]) = "transaction" ∧ detect_data_type none = "transaction" :=
  c7_detect_defaults_to_transaction ["foo"] (by decide) (by decide) (by decide)
    (by decide) (by decide) (by decide)

/-- C9: the unique-header pass of type detection is deterministic with the
fixed priority transaction → shop → product (the insertion order of the
`unique_headers` dict), so a header set intersecting several unique-header
sets is detected as the first type in that order whose unique set it
intersects. -/
theorem c9_unique_header_priority (hs : List String) :
    (intersects (hs.map lowerString) uniqueTransactionHeaders = true →
        detect_data_type (some hs) = "transaction") ∧
    (intersects (hs.map lowerString) uniqueTransactionHeaders = false →
      intersects (hs.map lowerString) uniqueShopHeaders = true →
        detect_data_type (some hs) = "shop") ∧
    (intersects (hs.map lowerString) uniqueTransactionHeaders = false →
      intersects (hs.map lowerString) uniqueShopHeaders = false →
      intersects (hs.map lowerString) uniqueProductHeaders = true →
        detect_data_type (some hs) = "product") := by
  refine ⟨fun h1 => ?_, fun h1 h2 => ?_, fun h1 h2 h3 => ?_⟩ <;>
    simp [detect_data_type, detectFromHeaders, *]

/-- Witness for C9: `owner_name` is unique to the shop layout and `sku`
unique to the product layout; shop wins by priority. -/
theorem c9_unique_header_priority_witness :
    detect_data_type (some ["owner_name", "sku"]) = "shop" :=
  (c9_unique_header_priority ["owner_name", "sku"]).2.1 (by decide) (by decide)

/-- C1 (code bug): with `batch_size = 5`, the failing sixth row of
`sixRows` (global 0-based index 5, original 1-indexed file position 6) is
reported with row number `batch_offset + label + 1 = 5 + 5 + 1 = 11`, because
`iterrows()` yields the original dataframe label rather than a window-local
index; with `batch_size = 10` the same file reports row number 6.  The
reported number therefore depends on the batch window size and doubly offsets
rows of the second and later windows, contradicting the specified
`offset + local_index + 1` numbering. -/
theorem c1_row_number_double_offset :
    ((process_csv_file txRowStep 5 "transaction" sixRows).errors.map (fun e => e.row) = [11]) ∧
    ((process_csv_file txRowStep 10 "transaction" sixRows).errors.map (fun e => e.row) = [6]) ∧
    sixRows.length = 6 := by
  decide

/-- C8 (code bug): when a worker is still running at the deadline,
`as_completed(..., timeout=processing_timeout)` raises
`concurrent.futures.TimeoutError` at the `for` statement — outside the
per-future `try` — and `process_multiple_files` has no enclosing handler, so
the exception escapes instead of the aggregate result reporting the item as
failed. -/
theorem c8_timeout_error_escapes :
    process_multiple_files
        [{ success := true, dlqSends := [], cleanups := 1, processedRows := 3, publishedCount := 3 }]
        false =
      .exc "concurrent.futures.TimeoutError" := by
  rfl

/-- Per-item counting in `publish_batch_data`: ids collected plus failures
counted equals the number of items. -/
theorem publishItems_length (maxRetries : Nat) (items : List (Nat → SendOutcome)) :
    (publishItems maxRetries items).1.length + (publishItems maxRetries items).2 =
      items.length := by
  induction items with
  | nil => rfl
  | cons tr trs IH =>
      cases h : (publish_single_message tr maxRetries).1 with
      | none => simp [publishItems, h]; omega
      | some id => simp [publishItems, h]; omega

/-- C10: `publish_batch_data` satisfies
`published_count + failed_count = |items|`,
`|message_ids| = published_count`, `success ↔ failed_count = 0`, and the
empty input yields the all-zero success summary. -/
theorem c10_publish_batch_invariants (maxRetries : Nat) (items : List (Nat → SendOutcome)) :
    (publish_batch_data maxRetries items).published_count +
        (publish_batch_data maxRetries items).failed_count = items.length ∧
    (publish_batch_data maxRetries items).message_ids.length =
        (publish_batch_data maxRetries items).published_count ∧
    ((publish_batch_data maxRetries items).success = true ↔
        (publish_batch_data maxRetries items).failed_count = 0) ∧
    publish_batch_data maxRetries [] =
      { success := true, published_count := 0, failed_count := 0, message_ids := [] } := by
  cases items with
  | nil => exact ⟨rfl, rfl, by simp [publish_batch_data], rfl⟩
  | cons tr trs =>
      have h := publishItems_length maxRetries (tr :: trs)
      refine ⟨?_, ?_, ?_, rfl⟩
      · simpa [publish_batch_data] using h
      · simp [publish_batch_data]
      · simp [publish_batch_data]

/-- One batch: successes are the step's `ok` values in order, the error
entries echo exactly the failing rows, and every row lands in exactly one of
the two lists. -/
theorem process_batch_spec {α : Type} (step : Row → Except String α)
    (l : List (Nat × Row)) (off : Nat) :
    (process_batch step l off).1 = l.filterMap (fun p => (step p.2).toOption) ∧
    (process_batch step l off).2.map (fun e => e.data) =
      ((l.filter (fun p => !(step p.2).isOk)).map Prod.snd) ∧
    (process_batch step l off).1.length + (process_batch step l off).2.length = l.length := by
  induction l with
  | nil => exact ⟨rfl, rfl, rfl⟩
  | cons p ps IH =>
      obtain ⟨IH1, IH2, IH3⟩ := IH
      cases h : step p.2 with
      | ok v =>
          refine ⟨?_, ?_, ?_⟩
          · simp [process_batch, h, Except.toOption, IH1]
          · have hq : (!(step p.2).isOk) = false := by rw [h]; rfl
            simp [process_batch, h, List.filter_cons, hq, IH2, Except.isOk, Except.toBool]
          · simp only [process_batch, h, List.length_cons]
            omega
      | error m =>
          refine ⟨?_, ?_, ?_⟩
          · simp [process_batch, h, Except.toOption, IH1]
          · have hq : (!(step p.2).isOk) = true := by rw [h]; rfl
            simp [process_batch, h, List.filter_cons, hq, IH2, Except.isOk, Except.toBool]
          · simp only [process_batch, h, List.length_cons]
            omega

/-- The batch-window loop: chunking into windows does not change which rows
succeed or fail, nor the partition count. -/
theorem processBatches_spec {α : Type} (step : Row → Except String α) (bs : Nat)
    (hbs : 0 < bs) :
    ∀ (fuel : Nat) (l : List (Nat × Row)) (off : Nat), l.length ≤ fuel →
      (processBatches step bs fuel l off).1 = l.filterMap (fun p => (step p.2).toOption) ∧
      (processBatches step bs fuel l off).2.map (fun e => e.data) =
        ((l.filter (fun p => !(step p.2).isOk)).map Prod.snd) ∧
      (processBatches step bs fuel l off).1.length +
          (processBatches step bs fuel l off).2.length = l.length := by
  intro fuel
  induction fuel with
  | zero =>
      intro l off hl
      have : l = [] := List.length_eq_zero.mp (by omega)
      subst this
      exact ⟨rfl, rfl, rfl⟩
  | succ fuel IH =>
      intro l off hl
      cases l with
      | nil => exact ⟨rfl, rfl, rfl⟩
      | cons x xs =>
          have hdrop : ((x :: xs).drop bs).length ≤ fuel := by
            simp only [List.length_drop, List.length_cons] at *
            omega
          obtain ⟨F1, F2, F3⟩ := process_batch_spec step ((x :: xs).take bs) off
          obtain ⟨R1, R2, R3⟩ := IH ((x :: xs).drop bs) (off + bs) hdrop
          have hsplit := List.take_append_drop bs (x :: xs)
          refine ⟨?_, ?_, ?_⟩
          · simp only [processBatches, F1, R1]
            rw [← List.filterMap_append, hsplit]
          · simp only [processBatches, List.map_append, F2, R2]
            rw [← List.map_append, ← List.filter_append, hsplit]
          · have hlen : ((x :: xs).take bs).length + ((x :: xs).drop bs).length =
                (x :: xs).length := by
              rw [← List.length_append, hsplit]
            simp only [processBatches, List.length_append]
            omega

/-- Erasing the pandas labels: filtering/collecting over the labeled rows is
filtering/collecting over the rows. -/
theorem enum_filterMap_snd {α : Type} (f : Row → Option α) (rows : List Row) :
    rows.enum.filterMap (fun p => f p.2) = rows.filterMap f := by
  conv_rhs => rw [← List.enum_map_snd rows]
  rw [List.filterMap_map]
  rfl

/-- Erasing the pandas labels for the failing rows. -/
theorem enum_filter_snd (q : Row → Bool) (rows : List Row) :
    (rows.enum.filter (fun p => q p.2)).map Prod.snd = rows.filter q := by
  conv_rhs => rw [← List.enum_map_snd rows]
  rw [List.filter_map]
  rfl

/-- C2: for every fully-read source, every per-row step, and every positive
batch window size, `total_rows = |data| + |errors|`; moreover `data` is
exactly the rows the step accepts (in order) and the error entries echo
exactly the rows it rejects (in order) — every row lands in exactly one of
the two lists. -/
theorem c2_total_rows_partition {α : Type} (step : Row → Except String α) (bs : Nat)
    (dt : String) (rows : List Row) (hbs : 0 < bs) :
    (process_csv_file step bs dt rows).total_rows =
        (process_csv_file step bs dt rows).data.length +
          (process_csv_file step bs dt rows).errors.length ∧
    (process_csv_file step bs dt rows).data = rows.filterMap (fun r => (step r).toOption) ∧
    (process_csv_file step bs dt rows).errors.map (fun e => e.data) =
        rows.filter (fun r => !(step r).isOk) := by
  obtain ⟨H1, H2, H3⟩ :=
    processBatches_spec step bs hbs rows.length rows.enum 0 (by rw [List.enum_length])
  refine ⟨?_, ?_, ?_⟩
  · simp only [process_csv_file]
    rw [List.enum_length] at H3
    omega
  · simp only [process_csv_file, H1]
    exact enum_filterMap_snd (fun r => (step r).toOption) rows
  · simp only [process_csv_file, H2]
    exact enum_filter_snd (fun r => !(step r).isOk) rows

/-- Witness for C2 on a concrete six-row transaction file processed in
windows of five: five successes, one error, six rows. -/
theorem c2_total_rows_partition_witness :
    (process_csv_file txRowStep 5 "transaction" sixRows).total_rows =
        (process_csv_file txRowStep 5 "transaction" sixRows).data.length +
          (process_csv_file txRowStep 5 "transaction" sixRows).errors.length :=
  (c2_total_rows_partition txRowStep 5 "transaction" sixRows (by decide)).1

/-- Shifting one step off a backoff schedule. -/
theorem backoffsFrom_succ (attempt K : Nat) :
    backoffsFrom attempt (K + 1) = 2 ^ attempt :: backoffsFrom (attempt + 1) K := by
  have hf : (fun j => 2 ^ (attempt + Nat.succ j)) = fun j => 2 ^ (attempt + 1 + j) := by
    funext j
    congr 1
    omega
  simp [backoffsFrom, List.range_succ_eq_map, List.map_map, Function.comp, hf]
  intro a _
  omega

/-- The schedule from attempt 0 is the claim's `2^0, …, 2^(K-1)`. -/
theorem backoffsFrom_zero (K : Nat) : backoffsFrom 0 K = backoffs K := by
  simp [backoffsFrom, backoffs]

/-- Retry loop, success case: `K` transient failures from `attempt` on, then
a success, all within the retry budget. -/
theorem publishLoop_success (outcomes : Nat → SendOutcome) (maxRetries : Nat) (id : String) :
    ∀ K attempt : Nat, attempt + K ≤ maxRetries →
      (∀ i, i < K → outcomes (attempt + i) = .transient) →
      outcomes (attempt + K) = .success id →
      publishLoop outcomes maxRetries (maxRetries + 1 - attempt) attempt =
        (some id, backoffsFrom attempt K, K + 1) := by
  intro K
  induction K with
  | zero =>
      intro attempt hle hT hS
      have h1 : maxRetries + 1 - attempt = (maxRetries - attempt) + 1 := by omega
      have hS0 : outcomes attempt = .success id := by simpa using hS
      rw [h1]
      simp [publishLoop, hS0, backoffsFrom]
  | succ K IH =>
      intro attempt hle hT hS
      have h0 : outcomes attempt = .transient := by simpa using hT 0 (by omega)
      have h1 : maxRetries + 1 - attempt = (maxRetries - attempt) + 1 := by omega
      have h2 : maxRetries - attempt = maxRetries + 1 - (attempt + 1) := by omega
      have hT2 : ∀ i, i < K → outcomes (attempt + 1 + i) = .transient := by
        intro i hi
        have := hT (i + 1) (by omega)
        rwa [show attempt + (i + 1) = attempt + 1 + i by omega] at this
      have hS2 : outcomes (attempt + 1 + K) = .success id := by
        rwa [show attempt + 1 + K = attempt + (K + 1) by omega]
      rw [h1]
      simp only [publishLoop, h0]
      rw [if_pos (by omega : attempt < maxRetries), h2,
        IH (attempt + 1) (by omega) hT2 hS2, backoffsFrom_succ]

/-- Retry loop, exhaustion case: transient failures on every attempt of the
budget. -/
theorem publishLoop_exhaust (outcomes : Nat → SendOutcome) (maxRetries : Nat) :
    ∀ K attempt : Nat, attempt + K = maxRetries →
      (∀ i, attempt ≤ i → i ≤ maxRetries → outcomes i = .transient) →
      publishLoop outcomes maxRetries (maxRetries + 1 - attempt) attempt =
        (none, backoffsFrom attempt K, K + 1) := by
  intro K
  induction K with
  | zero =>
      intro attempt hle hT
      have h0 : outcomes attempt = .transient := hT attempt (by omega) (by omega)
      have h1 : maxRetries + 1 - attempt = 1 := by omega
      rw [h1]
      simp [publishLoop, h0, backoffsFrom, if_neg (by omega : ¬ attempt < maxRetries)]
  | succ K IH =>
      intro attempt hle hT
      have h0 : outcomes attempt = .transient := hT attempt (by omega) (by omega)
      have h1 : maxRetries + 1 - attempt = (maxRetries - attempt) + 1 := by omega
      have h2 : maxRetries - attempt = maxRetries + 1 - (attempt + 1) := by omega
      rw [h1]
      simp only [publishLoop, h0]
      rw [if_pos (by omega : attempt < maxRetries), h2,
        IH (attempt + 1) (by omega) (fun i hi hi2 => hT i (by omega) hi2), backoffsFrom_succ]

/-- C3: the retry policy of `_publish_single_message`.  `K` transient
failures then a success (within a budget of `maxRetries`) yields success
after exactly `K+1` send invocations with exactly the `K` backoff sleeps
`2^0, …, 2^(K-1)`; all-transient failure with `max_retries = K` yields
exactly `K+1` send invocations, those same sleeps, and no message id (the
record counts as failed); a non-transient (unexpected) error on the first
invocation aborts immediately: one invocation, no sleeps, no message id. -/
theorem c3_retry_policy (outcomes : Nat → SendOutcome) (maxRetries K : Nat) (id : String) :
    (K ≤ maxRetries → (∀ i, i < K → outcomes i = .transient) → outcomes K = .success id →
        publish_single_message outcomes maxRetries = (some id, backoffs K, K + 1)) ∧
    ((∀ i, i ≤ K → outcomes i = .transient) →
        publish_single_message outcomes K = (none, backoffs K, K + 1)) ∧
    (outcomes 0 = .fatal → publish_single_message outcomes maxRetries = (none, [], 1)) := by
  refine ⟨fun hle hT hS => ?_, fun hT => ?_, fun hF => ?_⟩
  · have := publishLoop_success outcomes maxRetries id K 0 (by omega)
      (by simpa using hT) (by simpa using hS)
    simpa [publish_single_message, backoffsFrom_zero] using this
  · have := publishLoop_exhaust outcomes K K 0 (by omega)
      (fun i _ hi2 => hT i hi2)
    simpa [publish_single_message, backoffsFrom_zero] using this
  · simp [publish_single_message, publishLoop, hF]

/-- Witness for C3: a transport that fails transiently twice and then
succeeds, under a budget of three retries: three invocations, sleeps of 1 and
2 time units. -/
theorem c3_retry_policy_witness :
    publish_single_message (fun i => if i < 2 then .transient else .success "mid_1") 3 =
      (some "mid_1", backoffs 2, 3) :=
  (c3_retry_policy (fun i => if i < 2 then .transient else .success "mid_1") 3 2 "mid_1").1
    (by decide) (by decide) (by decide)

/-- Every positive number factors as a non-multiple of ten times a power of
ten. -/
theorem exists_ten_factor : ∀ r : Nat, r ≠ 0 → ∃ g z, g % 10 ≠ 0 ∧ r = g * 10 ^ z := by
  intro r
  induction r using Nat.strong_induction_on with
  | _ r IH =>
    intro hr
    by_cases h : r % 10 = 0
    · have hlt : r / 10 < r := Nat.div_lt_self (Nat.pos_of_ne_zero hr) (by omega)
      have hmod := Nat.div_add_mod r 10
      have hne : r / 10 ≠ 0 := by omega
      obtain ⟨g, z, hg, he⟩ := IH (r / 10) hlt hne
      refine ⟨g, z + 1, hg, ?_⟩
      have h2 : r = 10 * (r / 10) := by omega
      rw [h2, he, pow_succ]
      ring
    · exact ⟨r, 0, h, by simp⟩

/-- `tenVal` counts the exact power of ten split off by
`exists_ten_factor`, given enough fuel. -/
theorem tenVal_mul_pow : ∀ m fuel g : Nat, g % 10 ≠ 0 → m ≤ fuel →
    tenVal fuel (g * 10 ^ m) = m := by
  intro m
  induction m with
  | zero =>
      intro fuel g hg _
      cases fuel with
      | zero => rfl
      | succ f => simp [tenVal, hg]
  | succ m IH =>
      intro fuel g hg hle
      cases fuel with
      | zero => omega
      | succ f =>
          have h10 : g * 10 ^ (m + 1) % 10 = 0 := by
            rw [pow_succ, ← mul_assoc]
            exact Nat.mul_mod_left _ 10
          have hdiv : g * 10 ^ (m + 1) / 10 = g * 10 ^ m := by
            rw [pow_succ, ← mul_assoc]
            exact Nat.mul_div_cancel _ (by omega)
          simp [tenVal, h10, hdiv, IH f g hg (by omega)]

/-- Formatting at `k ≥ e` fractional digits is exact on `a / 10^e`: no
rounding happens, only trailing zeros appear. -/
theorem roundScaled_pow (a e k : Nat) (h : e ≤ k) :
    roundScaled a e k = a * 10 ^ (k - e) := by
  have hpos : 0 < (10 : Nat) ^ e := pow_pos (by omega) e
  have hnum : 2 * a * 10 ^ k + 10 ^ e = 10 ^ e * (2 * (a * 10 ^ (k - e)) + 1) := by
    rw [show (10 : Nat) ^ k = 10 ^ (k - e) * 10 ^ e by rw [← pow_add]; congr 1; omega]
    ring
  rw [roundScaled, hnum, show 2 * (10 : Nat) ^ e = 10 ^ e * 2 by ring,
    Nat.mul_div_mul_left _ _ hpos, Nat.mul_add_div (by omega)]
  simp

/-- Appending trailing zeros does not change the significant fractional digit
count. -/
theorem fracDigitsOf_mul_pow (a e m : Nat) :
    fracDigitsOf (a * 10 ^ m) (e + m) = fracDigitsOf a e := by
  have hpe : 0 < (10 : Nat) ^ e := pow_pos (by omega) e
  have hpm : 0 < (10 : Nat) ^ m := pow_pos (by omega) m
  have hrlt : a % 10 ^ e < 10 ^ e := Nat.mod_lt _ hpe
  have hF : a * 10 ^ m % 10 ^ (e + m) = a % 10 ^ e * 10 ^ m := by
    have ha : a * 10 ^ m = a % 10 ^ e * 10 ^ m + a / 10 ^ e * 10 ^ (e + m) := by
      conv_lhs => rw [show a = 10 ^ e * (a / 10 ^ e) + a % 10 ^ e from (Nat.div_add_mod a (10 ^ e)).symm]
      rw [pow_add]
      ring
    rw [ha, Nat.add_mul_mod_self_right]
    exact Nat.mod_eq_of_lt (by rw [pow_add]; exact (Nat.mul_lt_mul_right hpm).mpr hrlt)
  simp only [fracDigitsOf, hF]
  by_cases hr0 : a % 10 ^ e = 0
  · simp [hr0]
  · have hrm : a % 10 ^ e * 10 ^ m ≠ 0 := Nat.mul_ne_zero hr0 (by omega)
    rw [if_neg hrm, if_neg hr0]
    obtain ⟨g, z, hg, hgz⟩ := exists_ten_factor (a % 10 ^ e) hr0
    have hzr : (10 : Nat) ^ z ≤ a % 10 ^ e := by
      rw [hgz]
      exact Nat.le_mul_of_pos_left _ (by omega)
    have hz : z < e := by
      by_contra hze
      push_neg at hze
      have : (10 : Nat) ^ e ≤ 10 ^ z := Nat.pow_le_pow_right (by omega) hze
      omega
    have t1 : tenVal e (a % 10 ^ e) = z := by
      rw [hgz]
      exact tenVal_mul_pow z e g hg (by omega)
    have t2 : tenVal (e + m) (a % 10 ^ e * 10 ^ m) = z + m := by
      rw [hgz, mul_assoc, ← pow_add]
      exact tenVal_mul_pow (z + m) (e + m) g hg (by omega)
    rw [t1, t2]
    omega

/-- C4 (amended): the decimal-precision guard rejects every amount whose
decimal representation fits in the formatting window (at most `p+5`
fractional digits written), whose value scaled to `p+5` fractional digits
stays below `2^52` (so float conversion is exact to within half a formatting
step — for the limit 2 this covers every amount below ≈ 4.5·10^8, in
particular the whole schema-admissible transaction range), and which has,
after trimming trailing zeros, more than `p` significant fractional digits;
in particular the pipeline rejects a transaction row with amount `99.999`
under the limit 2 as a validation error whose message states "more than 2
decimal places".  Outside the domain the guard can accept such amounts: with
more than `p+5` written fractional digits, formatting rounds the excess away
(the counterexample: `99.99999999`), and at or above `2^52` when scaled,
`float()` itself collapses the literal (e.g. `99999999999999.999` becomes
`1e14`, so a product `price_discount_amount` of that form — which no schema
maximum stops — passes the guard and the whole pipeline). -/
theorem c4_precision_guard (a e p : Nat) (he : e ≤ p + 5)
    (hN : a * 10 ^ (p + 5 - e) < 2 ^ 52) (hd : p < fracDigitsOf a e) :
    validate_amount_decimals a e p = false ∧
    txRowStep (txRow "6" "99.999") =
      .error "Schema validation error: Amount 99.999 has more than 2 decimal places" := by
  refine ⟨?_, by decide⟩
  have ha : a ≠ 0 := by
    intro h0
    subst h0
    have h00 : fracDigitsOf 0 e = 0 := by simp [fracDigitsOf]
    omega
  rw [validate_amount_decimals, if_neg ha, roundScaled_pow a e (p + 5) he]
  have hm : p + 5 = e + (p + 5 - e) := by omega
  rw [show fracDigitsOf (a * 10 ^ (p + 5 - e)) (p + 5) =
        fracDigitsOf (a * 10 ^ (p + 5 - e)) (e + (p + 5 - e)) by rw [← hm],
    fracDigitsOf_mul_pow]
  simp only [decide_eq_false_iff_not]
  omega

/-- Witness for C4 (amended) at the spec's own example: `99.999 = 99999/10^3`
has three significant fractional digits, more than the limit 2, its scaled
value `99999·10^4 < 2^52` is inside the float-exact domain, and the guard
rejects it. -/
theorem c4_precision_guard_witness :
    validate_amount_decimals 99999 3 2 = false :=
  (c4_precision_guard 99999 3 2 (by decide) (by decide) (by decide)).1

/-- C4 counterexample: the amount `99.99999999 = 9999999999/10^8` has eight
significant fractional digits — more than the limit 2 — yet
`_validate_amount_decimals` accepts it: the `f"{amount:.7f}"` formatting step
rounds it to `100.0000000`, whose trimmed fractional part is empty.  The
transaction row carrying it then passes the guard (and the schema bounds
`0.01 ≤ amount ≤ 1000000` place no precision constraint), so batch
validation does not reject it.  (A second escape of the original claim, not
expressible in this exact-decimal embedding, is `float()` collapse of
literals whose scaled value reaches `2^52`, such as `99999999999999.999`;
the amendment excludes both regions.) -/
theorem c4_counterexample_eight_digit_amount :
    fracDigitsOf 9999999999 8 = 8 ∧ 2 < 8 ∧
    validate_amount_decimals 9999999999 8 2 = true ∧
    (txRowStep (txRow "7" "99.99999999")).isOk = true := by
  decide

/-- C5 counterexample: an unexpected exception raised inside the per-file
pipeline (here: during metadata retrieval) is caught by `process_file`'s own
handler and routed to the DLQ as a `file_error` envelope — not the
`processing_error` category the claim requires for uncategorized
exceptions. -/
theorem c5_counterexample_file_error_category :
    (process_file
        { download := .ok (some "/tmp/batch_files/f.csv"), metadata := .exc "unexpected",
          csv := csvCleanSummary, publish := pubCleanResult }).dlqSends =
      [DLQCategory.file_error] ∧
    DLQCategory.file_error ≠ DLQCategory.processing_error := by
  decide

/-- C5 (amended): an unexpected exception at the event boundary — outside
`process_file` — is routed as a `processing_error` envelope; an unexpected
exception inside the per-file pipeline is caught at the file boundary and
routed as a `file_error` envelope.  In both cases the caller receives a
structured failed result rather than an unhandled fault. -/
theorem c5_exception_routing (s : EventScenario) :
    (∀ m, s.hasNames = true → s.supported = .exc m →
        process_gcs_event s =
          { success := false, dlqSends := [DLQCategory.processing_error] }) ∧
    (∀ path m, s.hasNames = true → s.supported = .ok true →
        s.file.download = .ok (some path) → s.file.metadata = .exc m →
        (process_gcs_event s).success = false ∧
        (process_gcs_event s).dlqSends = [DLQCategory.file_error]) := by
  refine ⟨fun m h1 h2 => ?_, fun path m h1 h2 h3 h4 => ?_⟩
  · simp [process_gcs_event, h1, h2]
  · constructor <;> simp [process_gcs_event, process_file, h1, h2, h3, h4]

/-- Witness for C5 (amended): an event whose file-type probe raises is routed
as `processing_error` with a structured failure. -/
theorem c5_exception_routing_witness :
    process_gcs_event
        { hasNames := true, supported := .exc "boom",
          file := { download := .ok (some "/tmp/batch_files/f.csv"), metadata := .ok (),
                    csv := csvCleanSummary, publish := pubCleanResult } } =
      { success := false, dlqSends := [DLQCategory.processing_error] } :=
  (c5_exception_routing _).1 "boom" rfl rfl

/-- Inverting one monadic bind of an `Except` pipeline. -/
theorem except_bind_ok {α β : Type} {x : Except String α} {f : α → Except String β} {b : β}
    (h : x >>= f = .ok b) : ∃ a, x = .ok a ∧ f a = .ok b := by
  cases x with
  | error e => exact absurd h (by simp [Bind.bind, Except.bind])
  | ok a => exact ⟨a, rfl, by simpa [Bind.bind, Except.bind] using h⟩

/-- C6 counterexample: a transaction row with no `currency` column transforms
to a record whose currency field is `"USD"`, not the empty string. -/
theorem c6_counterexample_currency_defaults_usd :
    (transform_transaction_row []).toOption.map TxRecord.currency = some "USD" ∧
    "USD" ≠ "" := by
  decide

/-- C6 (amended): each transformer variant pulls its schema's required fields
directly from the row; a required field whose column is absent defaults to
the empty string for strings and to `0`/`0.0` for numerics, **except** the
currency fields (`currency` of transactions, `price_currency` of products),
which default to `"USD"`; a present-but-empty currency cell does yield the
empty string. -/
theorem c6_required_field_defaults (row : Row) (r : TxRecord) (q : ProductRecord)
    (hr : transform_transaction_row row = .ok r)
    (hq : transform_product_row row = .ok q) :
    (rget row "currency" = none → r.currency = "USD") ∧
    (rget row "currency" = some "" → r.currency = "") ∧
    (rget row "transaction_id" = none → r.transaction_id = "") ∧
    (rget row "customer_id" = none → r.customer_id = "") ∧
    (rget row "transaction_type" = none → r.transaction_type = "") ∧
    (rget row "timestamp" = none → r.timestamp = "") ∧
    (rget row "payment_method_type" = none → r.payment_method.type = "") ∧
    (rget row "amount" = none → r.amount = (0, 0)) ∧
    (rget row "price_currency" = none → q.price.currency = "USD") ∧
    (rget row "product_id" = none → q.product_id = "") ∧
    (rget row "sku" = none → q.sku = "") ∧
    (rget row "name" = none → q.name = "" ∧ (transform_shop_row row).name = "") ∧
    (rget row "status" = none → q.status = "" ∧ (transform_shop_row row).status = "") ∧
    (rget row "created_date" = none → q.created_date = "") ∧
    (rget row "price_amount" = none → q.price.amount = (0, 0)) ∧
    (rget row "inventory_quantity" = none → q.inventory.quantity = 0) ∧
    (rget row "shop_id" = none → q.shop_id = "" ∧ (transform_shop_row row).shop_id = "") ∧
    (rget row "owner_name" = none → (transform_shop_row row).owner.name = "") ∧
    (rget row "registration_date" = none → (transform_shop_row row).registration_date = "") := by
  simp only [transform_transaction_row] at hr
  obtain ⟨amt, hamt, hr⟩ := except_bind_ok hr
  simp only [pure, Except.pure, Except.ok.injEq] at hr
  subst hr
  simp only [transform_product_row] at hq
  obtain ⟨pa, hpa, hq⟩ := except_bind_ok hq
  obtain ⟨iq, hiq, hq⟩ := except_bind_ok hq
  obtain ⟨da, hda, hq⟩ := except_bind_ok hq
  obtain ⟨dp, hdp, hq⟩ := except_bind_ok hq
  obtain ⟨ir, hir, hq⟩ := except_bind_ok hq
  obtain ⟨dims, hdims, hq⟩ := except_bind_ok hq
  simp only [pure, Except.pure, Except.ok.injEq] at hq
  subst hq
  refine ⟨?_, ?_, ?_, ?_, ?_, ?_, ?_, ?_, ?_, ?_, ?_, ?_, ?_, ?_, ?_, ?_, ?_, ?_, ?_⟩ <;>
    intro hnone
  · simp [rgetD, hnone]
  · simp [rgetD, hnone]
  · simp [rgetD, hnone]
  · simp [rgetD, hnone]
  · simp [rgetD, hnone]
  · simp [rgetD, hnone]
  · simp [rgetD, hnone]
  · have ht : truthy row "amount" = false := by simp [truthy, hnone]
    rw [reqFloat, ht] at hamt
    simp only [Bool.false_eq_true, if_false, pure, Except.pure, Except.ok.injEq] at hamt
    simp [hamt.symm]
  · simp [rgetD, hnone]
  · simp [rgetD, hnone]
  · simp [rgetD, hnone]
  · exact ⟨by simp [rgetD, hnone], by simp [transform_shop_row, rgetD, hnone]⟩
  · exact ⟨by simp [rgetD, hnone], by simp [transform_shop_row, rgetD, hnone]⟩
  · simp [rgetD, hnone]
  · have ht : truthy row "price_amount" = false := by simp [truthy, hnone]
    rw [reqFloat, ht] at hpa
    simp only [Bool.false_eq_true, if_false, pure, Except.pure, Except.ok.injEq] at hpa
    simp [hpa.symm]
  · have ht : truthy row "inventory_quantity" = false := by simp [truthy, hnone]
    rw [reqInt, ht] at hiq
    simp only [Bool.false_eq_true, if_false, pure, Except.pure, Except.ok.injEq] at hiq
    simp [hiq.symm]
  · exact ⟨by simp [rgetD, hnone], by simp [transform_shop_row, rgetD, hnone]⟩
  · simp [transform_shop_row, rgetD, hnone]
  · simp [transform_shop_row, rgetD, hnone]

/-- Witness for C6 (amended): transforming the empty row. -/
theorem c6_required_field_defaults_witness :
    txEmptyRecord.currency = "USD" :=
  (c6_required_field_defaults [] txEmptyRecord prodEmptyRecord (by decide) (by decide)).1 rfl

end BatchIngest
